import Mathlib

/-!
Verification of the marketplace analysis script (scripts/analyze_batch3.py).

The Python source is shallowly embedded below. Strings are modelled by the
Lean String type (a list of characters in this toolchain); Python string
truthiness (empty string is falsy) is modelled by strEmpty; Python None for
strings is modelled by Option.none. All string scanning primitives used by
the script (substring membership, str.strip, str.lower, str.split,
' '.join, slicing, and the three concrete regular expressions it compiles)
are given executable definitions over the character list.
-/

set_option maxRecDepth 100000
set_option maxHeartbeats 2000000

/-- Python truthiness test for a string: empty means falsy. -/
def strEmpty (s : String) : Bool := s.data.isEmpty

/-- Is p a prefix of l (character lists). -/
def prefixOfB : List Char → List Char → Bool
  | [], _ => true
  | _ :: _, [] => false
  | a :: as, b :: bs => a == b && prefixOfB as bs

/-- Does needle occur as a contiguous substring of the haystack list. -/
def substringB (needle : List Char) : List Char → Bool
  | [] => prefixOfB needle []
  | c :: rest => prefixOfB needle (c :: rest) || substringB needle rest

/-- Python membership test needle in hay for strings. -/
def strIn (needle hay : String) : Bool := substringB needle.data hay.data

/-- Python str.lower restricted to the ASCII range (all table keywords and
all text matched in this development are ASCII; CJK characters are
unaffected by either implementation). -/
def toLowerStr (s : String) : String := ⟨s.data.map Char.toLower⟩

/-- Python " ".join. -/
def joinSp : List String → String
  | [] => ""
  | [s] => s
  | s :: rest => s ++ " " ++ joinSp rest

/-- The whitespace characters stripped by Python str.strip. -/
def pySpace (c : Char) : Bool :=
  c == ' ' || c == '\t' || c == '\n' || c == '\r' || c == '\x0b' || c == '\x0c'

/-- Strip whitespace from both ends of a character list. -/
def stripL (l : List Char) : List Char :=
  ((l.dropWhile pySpace).reverse.dropWhile pySpace).reverse

/-- Python str.strip. -/
def pyStrip (s : String) : String := ⟨stripL s.data⟩

/-- Python str.startswith. -/
def startsWithB (s pre : String) : Bool := prefixOfB pre.data s.data

/-! ## Data model

A marketplace record as consumed by analyze_marketplace.  Optional string
fields are modelled as String with the empty string for an absent (or
null) value, matching the Python accesses m.get(key, "") combined with
truthiness tests; absent lists are empty lists. -/

/-- A skill or command entry: a name and a description, both optional. -/
structure SubRecord where
  name : String := ""
  description : String := ""
deriving DecidableEq

/-- A plugin entry of a marketplace record. -/
structure Plugin where
  name : String := ""
  description : String := ""
  skills : List SubRecord := []
  commands : List SubRecord := []
deriving DecidableEq

/-- A marketplace record (one element of the input batch). -/
structure Marketplace where
  repo : String := ""
  name : String := ""
  description : String := ""
  plugins : List Plugin := []
deriving DecidableEq

/-- The output record assembled by analyze_marketplace (lines 43-65). -/
structure AnalysisResult where
  repo : String
  function : Option String
  value : Option String
  stage_lifecycle_arch : List String
  integration : Option String
deriving DecidableEq

/-! ## Text aggregation (analyze_marketplace, lines 14-40) -/

/-- The description texts contributed by one plugin to all_info: the plugin
description if truthy, then its skill descriptions, then its command
descriptions (lines 26-37). -/
def pluginInfo (p : Plugin) : List String :=
  (if strEmpty p.description then [] else [p.description]) ++
  (p.skills.filterMap fun s => if strEmpty s.description then none else some s.description) ++
  (p.commands.filterMap fun c => if strEmpty c.description then none else some c.description)

/-- The all_info list of lines 15-37: the record description if truthy,
then the per-plugin texts in plugin order. -/
def allInfo (m : Marketplace) : List String :=
  (if strEmpty m.description then [] else [m.description]) ++ m.plugins.flatMap pluginInfo

/-- combined of line 39: lower-cased single-space join of all_info. -/
def combinedOf (m : Marketplace) : String := toLowerStr (joinSp (allInfo m))

/-- plugin_names of lines 16, 24-25 (truthy plugin names, in order). -/
def pluginNamesOf (m : Marketplace) : List String :=
  m.plugins.filterMap fun p => if strEmpty p.name then none else some p.name

/-- skill_names of lines 17, 29-30. -/
def skillNamesOf (m : Marketplace) : List String :=
  m.plugins.flatMap fun p =>
    p.skills.filterMap fun s => if strEmpty s.name then none else some s.name

/-- command_names of lines 18, 34-35. -/
def commandNamesOf (m : Marketplace) : List String :=
  m.plugins.flatMap fun p =>
    p.commands.filterMap fun c => if strEmpty c.name then none else some c.name

/-- all_names of line 40: lower-cased space join of plugin, skill, and
command names (grouped in that order). -/
def allNamesOf (m : Marketplace) : String :=
  toLowerStr (joinSp (pluginNamesOf m ++ skillNamesOf m ++ commandNamesOf m))

/-! ## Integration detection (detect_integration, lines 68-269) -/

/-- The static ordered (keyword, label) table of lines 71-239, in source
order. -/
def integrations : List (String × String) := [
  ("holoviz", "HoloViz"),
  ("treasure data", "Treasure Data"),
  ("home assistant", "Home Assistant"),
  ("esphome", "ESPHome"),
  ("graphpad prism", "GraphPad Prism"),
  ("redpanda connect", "Redpanda Connect"),
  ("shesha", "Shesha Framework"),
  ("microsoft 365", "Microsoft 365"),
  ("m365", "Microsoft 365"),
  ("google workspace", "Google Workspace"),
  ("twenty crm", "Twenty CRM"),
  ("makerkit", "MakerKit"),
  ("dojo", "Dojo/Starknet"),
  ("starknet", "Dojo/Starknet"),
  ("shioaji", "Shioaji"),
  ("frappe", "Frappe/ERPNext"),
  ("erpnext", "Frappe/ERPNext"),
  ("maui blazor", ".NET MAUI Blazor"),
  ("nette", "Nette Framework"),
  ("composable architecture", "Swift/TCA"),
  ("tca", "Swift/TCA"),
  ("webviewbridge", "Swift/WebKit"),
  ("langroid", "Langroid"),
  ("langchain", "LangChain"),
  ("dspy", "DSPy"),
  ("insforge", "InsForge"),
  ("cloudflare worker", "Cloudflare Workers"),
  ("railway", "Railway"),
  ("vercel", "Vercel"),
  ("hetzner", "Hetzner"),
  ("kubernetes", "Kubernetes"),
  ("k8s", "Kubernetes"),
  ("terraform", "Terraform"),
  ("docker", "Docker"),
  ("github action", "GitHub Actions"),
  ("buildkite", "Buildkite"),
  ("gitlab", "GitLab"),
  ("azure devops", "Azure DevOps"),
  ("aws", "AWS"),
  ("azure", "Azure"),
  ("gcp", "GCP"),
  ("google cloud", "GCP"),
  ("supabase", "Supabase"),
  ("firebase", "Firebase"),
  ("postgresql", "PostgreSQL"),
  ("postgres", "PostgreSQL"),
  ("mysql", "MySQL"),
  ("mongodb", "MongoDB"),
  ("redis", "Redis"),
  ("neo4j", "Neo4j"),
  ("duckdb", "DuckDB"),
  ("drizzle", "Drizzle ORM"),
  ("prisma", "Prisma"),
  ("sqlalchemy", "SQLAlchemy"),
  ("sql server", "SQL Server"),
  ("tsqlt", "SQL Server"),
  ("cool-mysql", "MySQL"),
  ("next.js", "Next.js"),
  ("nextjs", "Next.js"),
  ("nuxt", "Nuxt"),
  ("svelte", "Svelte"),
  ("angular", "Angular"),
  ("vue", "Vue"),
  ("react native", "React Native"),
  ("expo", "Expo"),
  ("flutter", "Flutter"),
  ("tanstack", "TanStack"),
  ("taro", "Taro"),
  ("django", "Django"),
  ("fastapi", "FastAPI"),
  ("spring boot", "Spring Boot"),
  ("springboot", "Spring Boot"),
  ("laravel", "Laravel"),
  ("laravel forge", "Laravel Forge"),
  ("ruby on rails", "Ruby on Rails"),
  ("rails", "Ruby on Rails"),
  ("go gin", "Go Gin"),
  ("gin framework", "Go Gin"),
  ("go echo", "Go Echo"),
  ("echo framework", "Go Echo"),
  ("hono", "Hono"),
  ("axum", "Rust Axum"),
  ("asp.net", "ASP.NET"),
  ("elixir", "Elixir"),
  ("phoenix", "Elixir/Phoenix"),
  ("haskell", "Haskell"),
  ("hoogle", "Haskell"),
  ("julia", "Julia"),
  ("elm", "Elm"),
  ("dart", "Dart"),
  ("rust", "Rust"),
  ("golang", "Go"),
  ("godot", "Godot"),
  ("unity", "Unity"),
  ("unreal", "Unreal"),
  ("ida pro", "IDA Pro"),
  ("idapython", "IDA Pro"),
  ("obsidian", "Obsidian"),
  ("notion", "Notion"),
  ("slack", "Slack"),
  ("jira", "Jira"),
  ("linear", "Linear"),
  ("playwright", "Playwright"),
  ("xcode", "Xcode"),
  ("iterm", "iTerm2"),
  ("tmux", "tmux"),
  ("zellij", "Zellij"),
  ("whisper", "Whisper"),
  ("browserbase", "Browserbase"),
  ("stripe", "Stripe"),
  ("plaid", "Plaid"),
  ("auth0", "Auth0"),
  ("posthog", "PostHog"),
  ("sentry", "Sentry"),
  ("bugsnag", "Bugsnag"),
  ("prometheus", "Prometheus"),
  ("tavily", "Tavily"),
  ("brevo", "Brevo"),
  ("salesforce", "Salesforce"),
  ("graphql", "GraphQL"),
  ("openapi", "OpenAPI"),
  ("openai", "OpenAI"),
  ("gemini", "Google Gemini"),
  ("anthropic", "Anthropic"),
  ("ollama", "Ollama"),
  ("mlx", "MLX"),
  ("pytorch", "PyTorch"),
  ("transformers", "Transformers"),
  ("modal", "Modal"),
  ("olakai", "Olakai"),
  ("aptos", "Aptos"),
  ("walrus", "Walrus"),
  ("shelby", "Shelby/Aptos"),
  ("web3", "Web3"),
  ("blockchain", "Blockchain"),
  ("wechat", "WeChat"),
  ("ia writer", "iA Writer"),
  ("polars", "Polars"),
  ("oxlint", "Oxlint"),
  ("marksman", "Marksman")]

/-- The per-pair test of line 242: keyword in combined or keyword in
repo.lower(). -/
def kwHit (combined repo : String) (kv : String × String) : Bool :=
  strIn kv.1 combined || strIn kv.1 (toLowerStr repo)

/-- The first-match scan of lines 241-243 over a (keyword, label) list. -/
def scanIntegrations (combined repo : String) : List (String × String) → Option String
  | [] => none
  | kv :: rest =>
    if kwHit combined repo kv then some kv.2 else scanIntegrations combined repo rest

/-- detect_integration of lines 68-269.  The all_names parameter is
accepted but never used, exactly as in the source. -/
def detect_integration (combined _all_names repo : String) : Option String :=
  match scanIntegrations combined repo integrations with
  | some label => some label
  | none =>
    if strIn "react" combined && !strIn "native" combined && !strIn "reactive" combined then
      some "React"
    else if strIn "python" combined &&
        !(strIn "django" combined || strIn "fastapi" combined || strIn "flask" combined) then
      some "Python"
    else if strIn "typescript" combined then some "TypeScript"
    else if strIn ".net" combined || strIn "dotnet" combined then some ".NET"
    else if strIn " go " combined || startsWithB combined "go " || strIn "golang" combined then
      some "Go"
    else if strIn "swift" combined && !strIn "swiftui" combined then some "Swift"
    else none

/-! ## Tag detection (detect_tags, lines 272-330)

Each table entry in the source is a regular expression of the shape
BOUNDARY ( alt1 | alt2 | ... ) BOUNDARY where BOUNDARY is a word boundary
and every alternative starts and ends with a word character.  Inside an
alternative a dot matches any character except a newline (this occurs in
two alternatives) and every other character matches itself.  re.search
over such a pattern succeeds exactly when some alternative matches at some
position with a word boundary on both sides, which is what wbSearch below
decides. -/

/-- A word character as in the regex class used by the patterns.  The
source uses the Unicode-aware Python class; every character fed to the
patterns in this development is ASCII, where the two classes agree. -/
def isWordChar (c : Char) : Bool := c.isAlphanum || c == '_'

/-- One pattern character against one text character: a dot matches any
character but a newline, everything else matches literally. -/
def charMatches (p c : Char) : Bool := if p == '.' then c != '\n' else p == c

/-- Word-boundary state before a match position: true at the start of the
text or after a non-word character. -/
def boundaryB : Option Char → Bool
  | none => true
  | some c => !isWordChar c

/-- Does alternative alt match at the head of text, with a word boundary
right after the match. -/
def altAt : List Char → List Char → Bool
  | [], [] => true
  | [], c :: _ => !isWordChar c
  | _ :: _, [] => false
  | p :: ps, c :: cs => charMatches p c && altAt ps cs

/-- Scan the text for a position with a word boundary before it at which
alt matches; prev is the character before the current position. -/
def altSearch (alt : List Char) : Option Char → List Char → Bool
  | _, [] => false
  | prev, c :: cs => (boundaryB prev && altAt alt (c :: cs)) || altSearch alt (some c) cs

/-- re.search of a word-boundary-delimited alternation against text. -/
def wbSearch (alts : List String) (text : String) : Bool :=
  alts.any fun a => altSearch a.data none text.data

/-- The static (pattern, tag) table of lines 276-324, each pattern given by
its list of alternatives, in source order. -/
def tag_patterns : List (List String × String) := [
  (["plan", "planning", "spec", "specification", "requirement", "prd", "roadmap"], "planning"),
  (["design", "architect", "uml", "diagram", "blueprint", "wireframe"], "design"),
  (["implement", "develop", "code", "build", "scaffold", "generate"], "implementation"),
  (["test", "tdd", "bdd", "unit test", "e2e", "playwright", "jest", "pytest"], "testing"),
  (["deploy", "ci/cd", "release", "ship", "publish", "pipeline"], "deployment"),
  (["monitor", "observ", "metric", "telemetry", "trace", "log"], "monitoring"),
  (["debug", "troubleshoot", "diagnos", "fix", "error"], "debugging"),
  (["document", "doc", "readme", "changelog", "wiki"], "documentation"),
  (["review", "pr review", "code review", "audit"], "code-review"),
  (["context", "memory", "session", "persist", "state"], "context-management"),
  (["orchestrat", "multi-agent", "workflow", "pipeline", "coordinate"], "orchestration"),
  (["frontend", "ui", "component", "css", "style", "tailwind"], "frontend"),
  (["backend", "api", "server", "endpoint", "rest", "graphql"], "backend"),
  (["database", "sql", "migration", "schema", "orm", "query"], "database"),
  (["devops", "infrastructure", "cloud", "container", "k8s"], "devops"),
  (["security", "auth", "oauth", "vulnerability", "encrypt", "permission"], "security"),
  (["git", "commit", "branch", "merge", "rebase", "pr", "pull request"], "version-control"),
  (["refactor", "clean", "simplif", "reorganize"], "refactoring"),
  (["research", "analys", "investigat", "explor"], "research"),
  (["visual", "dashboard", "chart", "graph", "plot"], "data-visualization"),
  (["data process", "transform", "etl", "pipeline", "ingest"], "data-processing"),
  (["mobile", "ios", "android", "app store"], "mobile"),
  (["game", "unity", "godot", "unreal"], "game-development"),
  (["llm", "machine learning", "ml", "ai agent", "prompt"], "ai-ml"),
  (["prompt engineer", "prompt optim"], "prompt-engineering"),
  (["plugin develop", "skill creat", "marketplace"], "plugin-development"),
  (["incident", "root cause", "postmortem", "sre"], "incident-response"),
  (["notification", "alert", "webhook", "sound"], "notifications"),
  (["project manage", "task", "issue", "ticket", "backlog", "sprint"], "project-management"),
  (["content", "write", "blog", "article", "copy"], "content-creation"),
  (["translate", "i18n", "localization", "language"], "localization"),
  (["accessibility", "a11y", "wcag"], "accessibility"),
  (["performance", "optim", "speed", "cache"], "performance"),
  (["reverse engineer", "binary", "decompile", "disassembl"], "reverse-engineering"),
  (["crypto", "trading", "defi", "finance", "payment"], "fintech"),
  (["crm", "customer", "lead", "sales"], "crm"),
  (["marketing", "seo", "campaign", "analytics"], "marketing"),
  (["lsp", "language server"], "language-server"),
  (["format", "lint", "prettier", "eslint", "style"], "code-quality"),
  (["type check", "type signature", "rbs", "sorbet"], "type-checking"),
  (["ddd", "domain.driven", "bounded context"], "domain-driven-design"),
  (["tdd", "test.driven"], "test-driven-development")]

/-- detect_tags of lines 272-330.  The Python function accumulates matching
tags into a set; the tags of the table are pairwise distinct, so the set is
faithfully represented by the sublist of matching tags in table order.  The
all_names parameter is accepted but never used, as in the source. -/
def detect_tags (combined _all_names : String) : List String :=
  tag_patterns.filterMap fun pt => if wbSearch pt.1 combined then some pt.2 else none

/-! ## Description generation (generate_descriptions, lines 333-599) -/

/-- The first truthy plugin description (lines 340-344). -/
def firstPluginDesc : List Plugin → Option String
  | [] => none
  | p :: ps => if strEmpty p.description then firstPluginDesc ps else some p.description

/-- The six sentence terminators of the source: Latin and CJK. -/
def isTerm6 (c : Char) : Bool :=
  c == '.' || c == '!' || c == '?' || c == '。' || c == '！' || c == '？'

/-- The three CJK sentence terminators. -/
def isCjkTerm (c : Char) : Bool := c == '。' || c == '！' || c == '？'

/-- Continuation of the lazy CJK match: consume non-newline characters up
to and including the first CJK terminator. -/
def cjkGo : List Char → Option (List Char)
  | [] => none
  | c :: rest =>
    if isCjkTerm c then some [c]
    else if c == '\n' then none
    else (cjkGo rest).map fun t => c :: t

/-- The anchored lazy match of line 567: at least one non-newline
character, then further non-newline characters up to and including the
first CJK terminator. -/
def cjkScan : List Char → Option (List Char)
  | [] => none
  | c :: rest => if c == '\n' then none else (cjkGo rest).map fun t => c :: t

/-- Longest prefix of non-terminator characters together with the
terminator that follows it, if any. -/
def sentGo : List Char → List Char × Option Char
  | [] => ([], none)
  | c :: rest =>
    if isTerm6 c then ([], some c)
    else
      let r := sentGo rest
      (c :: r.1, r.2)

/-- The anchored greedy match of line 574: one or more non-terminator
characters followed by an optional terminator; fails when the text is
empty or starts with a terminator. -/
def sentScan (l : List Char) : Option (List Char) :=
  match l with
  | [] => none
  | c :: _ =>
    if isTerm6 c then none
    else
      match sentGo l with
      | (p, some t) => some (p ++ [t])
      | (p, none) => some p

/-- The first-sentence selection of lines 562-578: split at the first
period and strip; when that is shorter than 10 characters while the source
is longer than 20, re-attempt with the CJK match (full stripped source if
it fails); otherwise use the greedy first-sentence match (full stripped
source if it fails). -/
def rawFirstSentence (source : String) : String :=
  if (pyStrip ⟨source.data.takeWhile fun c => c != '.'⟩).length < 10 && source.length > 20 then
    match cjkScan source.data with
    | some g => pyStrip ⟨g⟩
    | none => pyStrip source
  else
    match sentScan source.data with
    | some g => pyStrip ⟨g⟩
    | none => pyStrip source

/-- The truncation of lines 580-581: beyond 150 characters keep 147 and
append three dots. -/
def truncate150 (f : String) : String :=
  if f.length > 150 then ⟨f.data.take 147⟩ ++ "..." else f

/-- True when the last character is one of the six terminators. -/
def endsInTerm (s : String) : Bool :=
  match s.data.getLast? with
  | some c => isTerm6 c
  | none => false

/-- The closing period of lines 582-583: appended when the function text is
truthy and does not already end in a terminator. -/
def addPeriod (f : String) : String :=
  if !strEmpty f && !endsInTerm f then f ++ "." else f

/-- Lines 580-583 combined. -/
def finishFunc (f : String) : String := addPeriod (truncate150 f)

/-- The whole fallback derivation of function from source
(lines 562-583). -/
def extractFunction (source : String) : String := finishFunc (rawFirstSentence source)

/-- The fallback derivation of value from combined (lines 586-595). -/
def fallbackValue (combined : String) : String :=
  if strIn "productivity" combined || strIn "workflow" combined then
    "Improve development productivity with automated workflows."
  else if strIn "quality" combined then
    "Maintain high code quality with consistent standards."
  else if strIn "speed" combined || strIn "fast" combined then
    "Complete development tasks faster."
  else if strIn "learn" combined || strIn "teach" combined then
    "Learn and improve development skills."
  else
    "Streamline development workflows and reduce manual effort."

/-- The integration-specific dispatch of lines 434-530, as a total function
of the integration label. -/
def integrationPair (integ : String) : String × String :=
  if integ == "Flutter" then
    ("Build and review Flutter/Dart applications with best practices.",
     "Develop cross-platform mobile apps faster with expert guidance.")
  else if integ == "Django" then
    ("Develop Django applications following best practices and patterns.",
     "Build robust Python web applications with proper architecture.")
  else if integ == "Next.js" then
    ("Build Next.js applications with React, routing, and server components.",
     "Create production-ready React applications with modern patterns.")
  else if integ == "Spring Boot" then
    ("Develop Spring Boot applications with proper architecture and patterns.",
     "Build enterprise Java applications following best practices.")
  else if integ == "Godot" then
    ("Develop, test, and deploy Godot game projects.",
     "Accelerate game development with automated testing and deployment.")
  else if integ == "IDA Pro" then
    ("Analyze binaries and automate reverse engineering tasks in IDA Pro.",
     "Accelerate security research with automated binary analysis.")
  else if integ == "Supabase" then
    ("Build applications with Supabase for database, auth, and storage.",
     "Develop full-stack apps quickly with managed backend services.")
  else if integ == "Jira" then
    ("Manage Jira issues, sprints, and workflows.",
     "Streamline project management with automated Jira operations.")
  else if integ == "Linear" then
    ("Manage Linear issues and development workflows.",
     "Keep development in sync with project management.")
  else if integ == "Home Assistant" then
    ("Create Home Assistant automations, scripts, and ESPHome configurations.",
     "Build smart home integrations with expert guidance.")
  else if integ == "Obsidian" then
    ("Manage Obsidian vaults including notes, links, and organization.",
     "Keep your knowledge base organized and interconnected.")
  else if integ == "Salesforce" then
    ("Develop Salesforce applications including Apex, Flows, and metadata.",
     "Build and maintain Salesforce customizations efficiently.")
  else if integ == "Go" || integ == "Go Gin" || integ == "Go Echo" then
    ("Develop Go applications with proper patterns and best practices.",
     "Write idiomatic, performant Go code.")
  else if integ == "Rust" then
    ("Develop Rust applications with proper patterns and error handling.",
     "Write safe, efficient Rust code.")
  else if integ == "Elixir/Phoenix" then
    ("Design and build Elixir/Phoenix applications with OTP patterns.",
     "Create scalable, fault-tolerant systems.")
  else if integ == "Laravel" then
    ("Develop Laravel applications with proper patterns and conventions.",
     "Build PHP applications following Laravel best practices.")
  else if integ == "Expo" then
    ("Build and deploy Expo/React Native mobile applications.",
     "Ship mobile apps faster with streamlined development workflows.")
  else if integ == "AWS" || integ == "Azure" || integ == "GCP" then
    ("Deploy and manage cloud infrastructure on " ++ integ ++ ".",
     "Automate cloud operations with infrastructure as code.")
  else if integ == "Kubernetes" then
    ("Deploy and manage Kubernetes applications and configurations.",
     "Simplify container orchestration and deployment.")
  else if integ == "Docker" then
    ("Build and manage Docker containers and development environments.",
     "Standardize development and deployment with containers.")
  else if integ == "Playwright" then
    ("Automate browser testing and web scraping with Playwright.",
     "Test web applications reliably across browsers.")
  else if integ == "GraphQL" then
    ("Design and implement GraphQL APIs and schemas.",
     "Build flexible, efficient APIs with GraphQL.")
  else if integ == "Stripe" then
    ("Integrate Stripe payments, subscriptions, and webhooks.",
     "Add payment processing to applications quickly.")
  else if integ == "PostHog" then
    ("Manage PostHog feature flags, analytics, and user tracking.",
     "Make data-driven decisions with product analytics.")
  else if integ == "Sentry" then
    ("Debug application errors using Sentry error tracking.",
     "Identify and fix bugs faster with error context.")
  else if integ == "Notion" then
    ("Manage and automate Notion workspaces and knowledge bases.",
     "Keep documentation and knowledge organized.")
  else if integ == "Slack" then
    ("Search and interact with Slack workspaces and channels.",
     "Find information and automate Slack workflows.")
  else if integ == "Google Gemini" then
    ("Generate images and content using Google Gemini APIs.",
     "Create AI-generated assets for applications.")
  else if integ == "LangChain" then
    ("Build AI agents and workflows using LangChain.",
     "Create sophisticated AI applications with modular components.")
  else if integ == "Web3" then
    ("Develop Web3 and blockchain applications.",
     "Build decentralized applications with proper patterns.")
  else if integ == "WeChat" then
    ("Create WeChat Mini Programs and official account content.",
     "Reach users on China\x27s dominant messaging platform.")
  else
    ("Develop " ++ integ ++ " applications with best practices and patterns.",
     "Build quality " ++ integ ++ " projects faster.")

/-- The four post-integration content heuristics and the final fallback
(lines 533-597), reached only when no content rule fired and the
integration label is falsy. -/
def genTail (combined source : String) : Option String × Option String :=
  if strIn "autonomous" combined || strIn "autopilot" combined || strIn "ralph" combined then
    (some "Run autonomous development loops that iterate until task completion.",
     some "Let AI handle repetitive development tasks independently.")
  else if strIn "research" combined && (strIn "deep" combined || strIn "web" combined) then
    (some "Conduct deep research using web search and source analysis.",
     some "Get comprehensive, verified answers to complex questions.")
  else if strIn "notification" combined || strIn "alert" combined || strIn "sound" combined then
    (some "Send notifications when Claude completes tasks or needs input.",
     some "Stay informed without watching the terminal.")
  else if strIn "domain-driven" combined || strIn "ddd" combined
      || strIn "bounded context" combined then
    (some "Apply Domain-Driven Design principles to software architecture.",
     some "Build maintainable systems aligned with business domains.")
  else if strIn "security" combined
      && (strIn "audit" combined || strIn "review" combined || strIn "scan" combined) then
    (some "Audit code for security vulnerabilities and compliance issues.",
     some "Identify security risks before they reach production.")
  else if !strEmpty source then
    (some (extractFunction source), some (fallbackValue combined))
  else (none, none)

/-- The content cascade of lines 373-597: the twelve content rules, then
the integration dispatch when the label is truthy, then genTail. -/
def genFromText (combined : String) (integration : Option String) (source : String) :
    Option String × Option String :=
  if strIn "visualization" combined || strIn "holoviz" combined
      || (strIn "dashboard" combined && strIn "data" combined) then
    (some "Build interactive data visualizations and dashboards.",
     some "Create publication-quality visualizations with less code.")
  else if strIn "api" combined && (strIn "document" combined || strIn "endpoint" combined)
      && !strIn "visual" combined then
    (some "Document and explore REST API endpoints through testing and analysis.",
     some "Understand and document APIs quickly without manual exploration.")
  else if strIn "dashboard" combined then
    (some "Build interactive data visualizations and dashboards.",
     some "Create publication-quality visualizations with less code.")
  else if strIn "root cause" combined || strIn "incident" combined then
    (some "Investigate production incidents and identify root causes.",
     some "Reduce mean time to resolution with systematic debugging.")
  else if strIn "multi-agent" combined || strIn "orchestrat" combined then
    (some "Coordinate multiple AI agents to complete complex tasks.",
     some "Break down large problems into parallel workstreams.")
  else if strIn "session" combined
      && (strIn "context" combined || strIn "memory" combined || strIn "analytics" combined) then
    (some "Track and manage session state, context, and analytics.",
     some "Maintain continuity across conversations and optimize performance.")
  else if strIn "spec" combined && (strIn "driven" combined || strIn "workflow" combined) then
    (some "Follow specification-driven development with planning, design, and implementation phases.",
     some "Build software systematically with clear requirements and traceability.")
  else if strIn "tdd" combined || strIn "test-driven" combined then
    (some "Implement features using test-driven development methodology.",
     some "Write reliable code with comprehensive test coverage from the start.")
  else if strIn "git" combined
      && (strIn "commit" combined || strIn "workflow" combined || strIn "pr" combined) then
    (some "Automate git workflows including commits, branches, and pull requests.",
     some "Maintain clean git history with consistent commit conventions.")
  else if strIn "code review" combined || strIn "pr review" combined then
    (some "Review code changes and provide feedback on quality, security, and best practices.",
     some "Catch bugs and improve code quality before merging.")
  else if strIn "plugin" combined
      && (strIn "develop" combined || strIn "create" combined || strIn "build" combined) then
    (some "Create and manage Claude Code plugins, skills, and commands.",
     some "Extend Claude Code with custom functionality tailored to your workflow.")
  else if strIn "document" combined || strIn "changelog" combined || strIn "readme" combined then
    (some "Generate and maintain project documentation including READMEs and changelogs.",
     some "Keep documentation up-to-date with minimal manual effort.")
  else if (match integration with | some integ => !strEmpty integ | none => false) then
    ((integrationPair (integration.getD "")).1 |> some,
     (integrationPair (integration.getD "")).2 |> some)
  else genTail combined source

/-- The no-text branch of lines 347-364: name-based heuristics over the
space-joined lower-cased plugin names. -/
def noTextBranch (plugin_names : List String) : Option String × Option String :=
  if plugin_names.isEmpty then (none, none)
  else
    let names_combined := toLowerStr (joinSp plugin_names)
    if strIn "git" names_combined || strIn "commit" names_combined then
      (some "Automate git workflows including commits, branches, and pull requests.",
       some "Streamline version control with consistent, well-formatted commits.")
    else if strIn "review" names_combined then
      (some "Review code changes and provide feedback.",
       some "Catch issues early with automated code review.")
    else if strIn "test" names_combined then
      (some "Generate and run tests for code.",
       some "Ensure code quality with comprehensive test coverage.")
    else (none, none)

/-- generate_descriptions of lines 333-599.  The tags parameter is accepted
and never used, as in the source; the repo_lower variable of line 354 is
likewise computed and never used there. -/
def generate_descriptions (m : Marketplace) (combined : String) (integration : Option String)
    (_tags : List String) : Option String × Option String :=
  if strEmpty m.description && (firstPluginDesc m.plugins).isNone then
    noTextBranch (m.plugins.map Plugin.name)
  else
    genFromText combined integration
      (if !strEmpty m.description then m.description else (firstPluginDesc m.plugins).getD "")

/-! ## Orchestration (analyze_marketplace, lines 7-65) -/

/-- analyze_marketplace of lines 7-65.  Python sorts the tag set ascending
(sorted(list(tags))); with the pairwise-distinct tag list this is the
ascending insertion sort. -/
def analyze_marketplace (m : Marketplace) : AnalysisResult :=
  let combined := combinedOf m
  let all_names := allNamesOf m
  let integration := detect_integration combined all_names m.repo
  let tags := detect_tags combined all_names
  let fv := generate_descriptions m combined integration tags
  { repo := m.repo
    function := fv.1
    value := fv.2
    stage_lifecycle_arch :=
      if tags.isEmpty then ["general"]
      else List.insertionSort (fun a b : String => a ≤ b) tags
    integration := integration }

/-! ## Spec-modelled definitions

The following definitions are written from the wording of the
specification and of the claims, for comparison with the source
definitions above. -/

/-- Modelled from the spec (claim C3): the characters of the source before
the first Latin sentence terminator, where the claim names the terminators
as period, exclamation mark and question mark. -/
def beforeFirstLatinTerm : List Char → List Char
  | [] => []
  | c :: cs => if c == '.' || c == '!' || c == '?' then [] else c :: beforeFirstLatinTerm cs

/-- Modelled from the spec (claim C3 as stated): the first sentence is
obtained by splitting at the first Latin terminator and stripping; only
when it is shorter than 10 characters while the source is longer than 20
is the CJK re-attempt performed, using the full trimmed source when the
CJK match fails. -/
def specC3Raw (source : String) : String :=
  if (pyStrip ⟨beforeFirstLatinTerm source.data⟩).length < 10 && source.length > 20 then
    match cjkScan source.data with
    | some g => pyStrip ⟨g⟩
    | none => pyStrip source
  else pyStrip ⟨beforeFirstLatinTerm source.data⟩

/-- Claim C3 as stated, followed by the undisputed truncation and closing
period steps of the fallback. -/
def specC3Extract (source : String) : String := finishFunc (specC3Raw source)

/-- Modelled from the amended claim C3: the characters of the source before
the first period only. -/
def beforeFirstDot : List Char → List Char
  | [] => []
  | c :: cs => if c == '.' then [] else c :: beforeFirstDot cs

/-- Modelled from the amended claim C3: the first run of non-terminator
characters together with the terminator that ends it, if any; no match
when the source is empty or starts with a terminator. -/
def firstSentenceAny (l : List Char) : Option (List Char) :=
  match l with
  | [] => none
  | c :: _ =>
    if isTerm6 c then none
    else some ((l.takeWhile fun c => !isTerm6 c) ++ (l.dropWhile fun c => !isTerm6 c).take 1)

/-- The amended claim C3: the condition splits at the first period only
(then strips); when it holds, the CJK re-attempt runs (full trimmed source
on failure); otherwise the first sentence comes from the greedy match over
all six terminators (full trimmed source on failure). -/
def specC3AmendedRaw (source : String) : String :=
  if (pyStrip ⟨beforeFirstDot source.data⟩).length < 10 && source.length > 20 then
    match cjkScan source.data with
    | some g => pyStrip ⟨g⟩
    | none => pyStrip source
  else
    match firstSentenceAny source.data with
    | some g => pyStrip ⟨g⟩
    | none => pyStrip source

/-- The amended claim C3 followed by the truncation and closing period
steps. -/
def specC3AmendedExtract (source : String) : String := finishFunc (specC3AmendedRaw source)

/-- Modelled from the spec (claim C6): the description texts in the
documented order, written with map and filter. -/
def specTexts (m : Marketplace) : List String :=
  (if m.description = "" then [] else [m.description]) ++
  m.plugins.flatMap fun p =>
    (if p.description = "" then [] else [p.description]) ++
    ((p.skills.map SubRecord.description).filter fun d => d ≠ "") ++
    ((p.commands.map SubRecord.description).filter fun d => d ≠ "")

/-- Modelled from the spec (claim C6): combinedText as the lower-cased
single-space join of the description texts. -/
def specCombined (m : Marketplace) : String := toLowerStr (joinSp (specTexts m))

/-- Modelled from the spec (claim C7): the three name-based heuristics over
the lower-cased concatenation of plugin names, with the (none, none)
outcome when no heuristic applies or there are no plugins. -/
def specC7NameHeuristics (plugins : List Plugin) : Option String × Option String :=
  if plugins = [] then (none, none)
  else
    let names := toLowerStr (joinSp (plugins.map Plugin.name))
    if strIn "git" names || strIn "commit" names then
      (some "Automate git workflows including commits, branches, and pull requests.",
       some "Streamline version control with consistent, well-formatted commits.")
    else if strIn "review" names then
      (some "Review code changes and provide feedback.",
       some "Catch issues early with automated code review.")
    else if strIn "test" names then
      (some "Generate and run tests for code.",
       some "Ensure code quality with comprehensive test coverage.")
    else (none, none)

/-- Does some name-based heuristic of the no-text branch apply to the
record (claim C8). -/
def heuristicApplies (m : Marketplace) : Bool :=
  let nc := toLowerStr (joinSp (m.plugins.map Plugin.name))
  strIn "git" nc || strIn "commit" nc || strIn "review" nc || strIn "test" nc

/-- Erase the name of a skill or command entry. -/
def scrubSub (s : SubRecord) : SubRecord := { s with name := "" }

/-- Erase the skill and command names of a plugin, keeping everything
else. -/
def scrubPluginSC (p : Plugin) : Plugin :=
  { p with skills := p.skills.map scrubSub, commands := p.commands.map scrubSub }

/-- Erase all skill and command names of a record (claim C9): two records
agree on everything but skill and command names exactly when their scrubs
are equal. -/
def scrubSC (m : Marketplace) : Marketplace :=
  { m with plugins := m.plugins.map scrubPluginSC }

/-- Erase every name of a record: the record name, plugin names, and skill
and command names (claim C6). -/
def eraseNames (m : Marketplace) : Marketplace :=
  { m with name := ""
           plugins := m.plugins.map fun p =>
             { p with name := ""
                      skills := p.skills.map scrubSub
                      commands := p.commands.map scrubSub } }

/-! ## Concrete records used by the claims -/

/-- The record of the end-to-end scenario of claim C1. -/
def mC1 : Marketplace :=
  { repo := "x/y", description := "A tool for Kubernetes deployment automation.", plugins := [] }

/-- The record of the deterministic-aggregation scenario of claim C6:
description A, two plugins with descriptions B and C, and unrelated fields
(repo, record name, plugin names, skill and command names) filled with
junk. -/
def mC6 : Marketplace :=
  { repo := "unrelated/Repo"
    name := "JunkName"
    description := "A"
    plugins := [
      { name := "N1", description := "B"
        skills := [{ name := "SkillJunk", description := "" }]
        commands := [{ name := "CmdJunk", description := "" }] },
      { name := "N2", description := "C" }] }

/-- The record of the no-text scenario of claim C7: no description
anywhere, one plugin named commit-helper. -/
def mC7 : Marketplace := { repo := "r/r", plugins := [{ name := "commit-helper" }] }

/-- First record of the claim C9 witness pair. -/
def mC9a : Marketplace :=
  { repo := "a/b"
    description := "Build great things."
    plugins := [
      { name := "p1", description := "Ship it."
        skills := [{ name := "skill-alpha", description := "Review code." }]
        commands := [{ name := "cmd-alpha", description := "Run checks." }] }] }

/-- Second record of the claim C9 witness pair: identical to the first
except for the skill and command names. -/
def mC9b : Marketplace :=
  { repo := "a/b"
    description := "Build great things."
    plugins := [
      { name := "p1", description := "Ship it."
        skills := [{ name := "skill-beta", description := "Review code." }]
        commands := [{ name := "cmd-beta", description := "Run checks." }] }] }

/-- The 200-character terminator-free description of claim C2. -/
def longDesc200 : String := ⟨List.replicate 200 'a'⟩

/-- The source string refuting claim C3 as stated: its first Latin
terminator is an exclamation mark, and it contains no period. -/
def hiSource : String := "Hi! This tail has no period at all"

/-! ## Basic bridging lemmas -/

theorem strLength_data (s : String) : s.length = s.data.length := rfl

theorem data_append (a b : String) : (a ++ b).data = a.data ++ b.data := rfl

theorem takeWhile_of_all {p : Char → Bool} :
    ∀ l : List Char, (∀ c ∈ l, p c = true) → List.takeWhile p l = l := by
  intro l h
  induction l with
  | nil => rfl
  | cons c cs ih =>
    have hc : p c = true := h c (List.mem_cons_self c cs)
    simp only [List.takeWhile_cons, hc, if_true]
    have := ih fun d hd => h d (List.mem_cons_of_mem c hd)
    simp [this]

theorem sentGo_of_all :
    ∀ l : List Char, (∀ c ∈ l, isTerm6 c = false) → sentGo l = (l, none) := by
  intro l h
  induction l with
  | nil => rfl
  | cons c cs ih =>
    have hc : isTerm6 c = false := h c (List.mem_cons_self c cs)
    have := ih fun d hd => h d (List.mem_cons_of_mem c hd)
    simp [sentGo, hc, this]

/-- With more than 150 characters, lines 580-583 keep 147 characters and
append three dots, and the closing period step leaves the result alone. -/
theorem finish_trunc (f : String) (h : 150 < f.length) :
    finishFunc f = ⟨f.data.take 147⟩ ++ "..." := by
  have htr : truncate150 f = ⟨f.data.take 147⟩ ++ "..." := by
    simp [truncate150, h]
  have hend : endsInTerm ((⟨f.data.take 147⟩ : String) ++ "...") = true := by
    have hdata : ((⟨f.data.take 147⟩ : String) ++ "...").data
        = (f.data.take 147 ++ ['.', '.']) ++ ['.'] := by
      simp [data_append]
    simp [endsInTerm, hdata, List.getLast?_concat, isTerm6]
  simp [finishFunc, htr, addPeriod, hend]

/-! ## Claim C1 -/

/-- C1 counterexample: on the record with repo x/y and description
"A tool for Kubernetes deployment automation.", the claimed conjunction
fails: the tag list does not include devops, and function is not the
source description. -/
theorem c1_kubernetes_counterexample :
    ¬((analyze_marketplace mC1).integration = some "Kubernetes"
      ∧ "devops" ∈ (analyze_marketplace mC1).stage_lifecycle_arch
      ∧ (analyze_marketplace mC1).function
          = some "A tool for Kubernetes deployment automation."
      ∧ (analyze_marketplace mC1).value
          = some "Simplify container orchestration and deployment.") := by
  decide

/-- C1 (amended): on that record the transform returns integration
Kubernetes and the canned Kubernetes value sentence, but the tag list is
exactly the default general tag (no pattern of the tag table matches, so
devops is not included) and function is the canned Kubernetes function
sentence produced by the integration dispatch, not the source
description. -/
theorem c1_kubernetes_amended :
    analyze_marketplace mC1 =
      { repo := "x/y"
        function := some "Deploy and manage Kubernetes applications and configurations."
        value := some "Simplify container orchestration and deployment."
        stage_lifecycle_arch := ["general"]
        integration := some "Kubernetes" } := by
  decide

/-! ## Claim C2 -/

/-- C2 counterexample: a 200-character description with no sentence
terminator yields a function of length 150, not 148 as claimed. -/
theorem c2_truncation_counterexample : (extractFunction longDesc200).length ≠ 148 := by
  decide

/-- C2 (amended): in the fallback extraction, a function longer than 150
characters is truncated to its first 147 characters with the
three-character ellipsis appended; hence every 200-character source with
no sentence terminator and no leading or trailing whitespace yields a
function of length exactly 150, namely 147 characters plus the
three-character ellipsis. -/
theorem c2_truncation_amended :
    (∀ f : String, 150 < f.length → finishFunc f = ⟨f.data.take 147⟩ ++ "...")
    ∧ (∀ s : String, s.length = 200 → (∀ c ∈ s.data, isTerm6 c = false) → pyStrip s = s →
        extractFunction s = ⟨s.data.take 147⟩ ++ "..." ∧ (extractFunction s).length = 150) := by
  constructor
  · exact finish_trunc
  · intro s h200 hterm hstrip
    have hdatalen : s.data.length = 200 := by rw [← strLength_data, h200]
    have hdot : s.data.takeWhile (fun c => c != '.') = s.data := by
      apply takeWhile_of_all
      intro c hc
      have := hterm c hc
      simp [isTerm6] at this
      simp [this.1]
    have hstrip2 : pyStrip ⟨s.data⟩ = s := hstrip
    obtain ⟨c, rest, hcons⟩ : ∃ c rest, s.data = c :: rest := by
      cases hd : s.data with
      | nil => rw [hd] at hdatalen; simp at hdatalen
      | cons c r => exact ⟨c, r, rfl⟩
    have hc0 : isTerm6 c = false := hterm c (by rw [hcons]; exact List.mem_cons_self c rest)
    have hsent : sentScan s.data = some s.data := by
      rw [hcons]
      have hgo : sentGo (c :: rest) = (c :: rest, none) := by
        apply sentGo_of_all
        intro d hd
        exact hterm d (by rw [hcons]; exact hd)
      simp [sentScan, hc0, hgo]
    have hraw : rawFirstSentence s = s := by
      unfold rawFirstSentence
      rw [hdot, hstrip2, h200]
      simp only [hsent]
      norm_num
      exact hstrip2
    have hfin : extractFunction s = ⟨s.data.take 147⟩ ++ "..." := by
      unfold extractFunction
      rw [hraw]
      exact finish_trunc s (by rw [h200]; norm_num)
    refine ⟨hfin, ?_⟩
    rw [hfin, strLength_data, data_append, List.length_append, List.length_take, hdatalen]
    rfl

/-- C2 witness: the amended claim at the concrete 200-character
terminator-free description. -/
theorem c2_truncation_witness :
    extractFunction longDesc200 = ⟨longDesc200.data.take 147⟩ ++ "..."
      ∧ (extractFunction longDesc200).length = 150 :=
  c2_truncation_amended.2 longDesc200 (by decide) (by decide) (by decide)

/-! ## Claim C3 -/

theorem beforeFirstDot_eq :
    ∀ l : List Char, beforeFirstDot l = l.takeWhile fun c => c != '.' := by
  intro l
  induction l with
  | nil => rfl
  | cons c cs ih =>
    cases h : c == '.' with
    | true =>
      have hc : c = '.' := by simpa using h
      subst hc
      simp [beforeFirstDot, List.takeWhile_cons]
    | false =>
      have hc : ¬(c = '.') := by simpa using h
      simp [beforeFirstDot, List.takeWhile_cons, hc, ih]

theorem sentGo_split :
    ∀ l : List Char,
      sentGo l = (l.takeWhile (fun c => !isTerm6 c), (l.dropWhile fun c => !isTerm6 c).head?) := by
  intro l
  induction l with
  | nil => rfl
  | cons c cs ih =>
    cases h : isTerm6 c with
    | true => simp [sentGo, List.takeWhile_cons, List.dropWhile_cons, h]
    | false => simp [sentGo, List.takeWhile_cons, List.dropWhile_cons, h, ih]

theorem sentScan_eq : ∀ l : List Char, sentScan l = firstSentenceAny l := by
  intro l
  cases l with
  | nil => rfl
  | cons c cs =>
    cases h : isTerm6 c with
    | true => simp [sentScan, firstSentenceAny, h]
    | false =>
      cases hd : (c :: cs).dropWhile (fun c => !isTerm6 c) with
      | nil => simp [sentScan, firstSentenceAny, h, sentGo_split, hd]
      | cons d ds => simp [sentScan, firstSentenceAny, h, sentGo_split, hd]

/-- C3 counterexample: on a source whose first Latin terminator is an
exclamation mark and which contains no period, the extraction described by
the claim (split at the first of period, exclamation mark, question mark)
disagrees with the code, which splits the length-test sentence at periods
only and therefore keeps the short exclamation sentence. -/
theorem c3_split_counterexample : specC3Extract hiSource ≠ extractFunction hiSource := by
  decide

/-- C3 (amended): in the fallback extraction the length-test first sentence
is obtained by splitting at the first period only (then stripping), the
CJK re-attempt runs exactly when that sentence is shorter than 10
characters while the source is longer than 20 (full trimmed source if the
CJK match fails), and otherwise the function comes from the greedy
first-sentence match over all six terminators (full trimmed source if that
fails). -/
theorem c3_split_amended : ∀ s : String, extractFunction s = specC3AmendedExtract s := by
  intro s
  unfold extractFunction specC3AmendedExtract rawFirstSentence specC3AmendedRaw
  rw [beforeFirstDot_eq, ← sentScan_eq]

/-! ## Claim C4 -/

theorem scanIntegrations_first :
    ∀ (l : List (String × String)) (c r : String) (i : Nat) (h : i < l.length),
      kwHit c r (l.get ⟨i, h⟩) = true →
      (∀ j, (hj : j < i) → kwHit c r (l.get ⟨j, Nat.lt_trans hj h⟩) = false) →
      scanIntegrations c r l = some (l.get ⟨i, h⟩).2 := by
  intro l
  induction l with
  | nil => intro c r i h; exact absurd h (by simp)
  | cons kv rest ih =>
    intro c r i h hm hb
    cases i with
    | zero => simp only [List.get] at hm ⊢; simp [scanIntegrations, hm]
    | succ i' =>
      have h0 : kwHit c r kv = false := hb 0 (Nat.succ_pos i')
      have h' : i' < rest.length := Nat.lt_of_succ_lt_succ h
      have hm' : kwHit c r (rest.get ⟨i', h'⟩) = true := hm
      have hb' : ∀ j, (hj : j < i') → kwHit c r (rest.get ⟨j, Nat.lt_trans hj h'⟩) = false := by
        intro j hj
        exact hb (j + 1) (Nat.succ_lt_succ hj)
      simp only [scanIntegrations, h0, Bool.false_eq_true, if_false]
      exact ih c r i' h' hm' hb'

/-- C4 counterexample: the table keyword phoenix (a framework built on the
language elixir) is listed after the keyword elixir, so a combined text
containing both yields the language label Elixir, not the framework label
Elixir/Phoenix. -/
theorem c4_order_counterexample :
    ("elixir", "Elixir") ∈ integrations
    ∧ ("phoenix", "Elixir/Phoenix") ∈ integrations
    ∧ strIn "elixir" "elixir phoenix" = true
    ∧ strIn "phoenix" "elixir phoenix" = true
    ∧ detect_integration "elixir phoenix" "" "" = some "Elixir"
    ∧ some "Elixir" ≠ some "Elixir/Phoenix" := by
  decide

/-- C4 (amended): the classifier scans the static table in its given order
and returns the label of the first pair whose keyword occurs as a
substring of the combined text or of the lower-cased repo; hence a
combined text containing keywords of both a framework and its underlying
language yields the label whose table entry comes first, which is the
framework exactly when its entry precedes the language entry (as with axum
before rust), while phoenix follows elixir, so text containing both of
those yields the language label. -/
theorem c4_first_match_amended (combined all_names repo : String) (i : Nat)
    (h : i < integrations.length)
    (hm : kwHit combined repo (integrations.get ⟨i, h⟩) = true)
    (hb : ∀ j, (hj : j < i) → kwHit combined repo (integrations.get ⟨j, Nat.lt_trans hj h⟩) = false) :
    detect_integration combined all_names repo = some (integrations.get ⟨i, h⟩).2 := by
  have hscan := scanIntegrations_first integrations combined repo i h hm hb
  unfold detect_integration
  rw [hscan]

/-- C4 witness: the table entry axum (index 81) matches the combined text
"axum rust" while no earlier entry does, so the framework label Rust Axum
is returned even though the text also contains the later language keyword
rust. -/
theorem c4_first_match_witness :
    detect_integration "axum rust" "" "" = some "Rust Axum" :=
  Eq.trans (c4_first_match_amended "axum rust" "" "" 81 (by decide) (by decide) (by decide))
    (by decide)

/-! ## Claim C10 -/

theorem scanIntegrations_none :
    ∀ (l : List (String × String)) (c r : String),
      (∀ kv ∈ l, kwHit c r kv = false) → scanIntegrations c r l = none := by
  intro l c r h
  induction l with
  | nil => rfl
  | cons kv rest ih =>
    have h0 : kwHit c r kv = false := h kv (List.mem_cons_self kv rest)
    simp only [scanIntegrations, h0, Bool.false_eq_true, if_false]
    exact ih fun kv hkv => h kv (List.mem_cons_of_mem _ hkv)

/-- C10: the six fallback rules test only the combined text; with an empty
combined text and a repo whose lower-cased form contains no table keyword,
the integration label is absent, whatever the repo contains otherwise. -/
theorem c10_fallback_repo_confirmed (all_names repo : String)
    (h : ∀ kv ∈ integrations, strIn kv.1 (toLowerStr repo) = false) :
    detect_integration "" all_names repo = none := by
  have hhit : ∀ kv ∈ integrations, kwHit "" repo kv = false := by
    intro kv hkv
    have h1 : strIn kv.1 "" = false := by
      revert hkv
      revert kv
      decide
    simp [kwHit, h1, h kv hkv]
  have hscan := scanIntegrations_none integrations "" repo hhit
  unfold detect_integration
  rw [hscan]
  decide

/-- C10 witness: a repo containing the fallback keyword typescript (and no
table keyword) still yields no integration label when the combined text is
empty. -/
theorem c10_fallback_repo_witness :
    strIn "typescript" (toLowerStr "foo/TypeScript") = true
      ∧ detect_integration "" "" "foo/TypeScript" = none :=
  ⟨by decide, c10_fallback_repo_confirmed "" "foo/TypeScript" (by decide)⟩

/-! ## Claim C7 -/

theorem firstPluginDesc_none_iff :
    ∀ ps : List Plugin,
      firstPluginDesc ps = none ↔ ∀ p ∈ ps, strEmpty p.description = true := by
  intro ps
  induction ps with
  | nil => simp [firstPluginDesc]
  | cons p rest ih =>
    cases h : strEmpty p.description with
    | true => simp [firstPluginDesc, h, ih]
    | false => simp [firstPluginDesc, h]

theorem noTextBranch_eq_spec :
    ∀ ps : List Plugin, noTextBranch (ps.map Plugin.name) = specC7NameHeuristics ps := by
  intro ps
  cases ps with
  | nil => rfl
  | cons p rest => rfl

/-- C7: when the record description and every plugin description are
absent, the generator applies exactly the three name-based heuristics over
the lower-cased space-joined plugin names, in the order git-or-commit,
review, test, and returns (none, none) when none applies or there are no
plugins. -/
theorem c7_name_heuristics_confirmed (m : Marketplace) (combined : String)
    (integration : Option String) (tags : List String)
    (h1 : strEmpty m.description = true)
    (h2 : ∀ p ∈ m.plugins, strEmpty p.description = true) :
    generate_descriptions m combined integration tags = specC7NameHeuristics m.plugins := by
  have hpd : firstPluginDesc m.plugins = none := (firstPluginDesc_none_iff m.plugins).mpr h2
  unfold generate_descriptions
  rw [h1, hpd]
  simp only [Option.isNone_none, Bool.and_true, if_true]
  exact noTextBranch_eq_spec m.plugins

/-- C7 witness: the record with no descriptions and the single plugin name
commit-helper receives the canned git-workflow pair through the commit
heuristic. -/
theorem c7_name_heuristics_witness :
    generate_descriptions mC7 "" none []
      = (some "Automate git workflows including commits, branches, and pull requests.",
         some "Streamline version control with consistent, well-formatted commits.") :=
  Eq.trans (c7_name_heuristics_confirmed mC7 "" none [] (by decide) (by decide)) (by decide)

/-! ## Claim C6 -/

theorem strEmpty_iff (s : String) : strEmpty s = true ↔ s = "" := by
  cases s with
  | mk data =>
    simp [strEmpty, String.ext_iff]

theorem flatMap_congr2 {α β : Type} (f g : α → List β) (h : ∀ a, f a = g a) :
    ∀ l : List α, l.flatMap f = l.flatMap g := by
  intro l
  induction l with
  | nil => rfl
  | cons a rest ih => simp [List.flatMap_cons, h a, ih]

theorem filterMap_desc_eq (l : List SubRecord) :
    (l.filterMap fun s => if strEmpty s.description then none else some s.description)
      = (l.map SubRecord.description).filter fun d => d ≠ "" := by
  induction l with
  | nil => rfl
  | cons s rest ih =>
    cases h : strEmpty s.description with
    | true =>
      have he : s.description = "" := (strEmpty_iff _).mp h
      simp only [List.filterMap_cons, h, if_true, List.map_cons]
      simp [he, ih]
    | false =>
      have he : s.description ≠ "" := by
        intro hc
        rw [(strEmpty_iff s.description).mpr hc] at h
        cases h
      simp only [List.filterMap_cons, h, Bool.false_eq_true, if_false, List.map_cons]
      simp [he, ih]

theorem pluginInfo_eq_spec (p : Plugin) :
    pluginInfo p =
      (if p.description = "" then [] else [p.description]) ++
      ((p.skills.map SubRecord.description).filter fun d => d ≠ "") ++
      ((p.commands.map SubRecord.description).filter fun d => d ≠ "") := by
  unfold pluginInfo
  rw [filterMap_desc_eq, filterMap_desc_eq]
  simp [strEmpty_iff]

theorem allInfo_eq_spec (m : Marketplace) : allInfo m = specTexts m := by
  unfold allInfo specTexts
  rw [flatMap_congr2 _ _ pluginInfo_eq_spec]
  simp [strEmpty_iff]

theorem filterMap_desc_scrub (l : List SubRecord) :
    ((l.map scrubSub).filterMap fun s =>
        if strEmpty s.description then none else some s.description)
      = l.filterMap fun s => if strEmpty s.description then none else some s.description := by
  induction l with
  | nil => rfl
  | cons s rest ih => simp [List.filterMap_cons, scrubSub, ih]

theorem pluginInfo_scrubView (p : Plugin) :
    pluginInfo
      { p with name := ""
               skills := p.skills.map scrubSub
               commands := p.commands.map scrubSub } = pluginInfo p := by
  unfold pluginInfo
  simp only [filterMap_desc_scrub]

theorem flatMap_pluginInfo_of_eq {f : Plugin → Plugin}
    (h : ∀ p, pluginInfo (f p) = pluginInfo p) :
    ∀ ps : List Plugin, (ps.map f).flatMap pluginInfo = ps.flatMap pluginInfo := by
  intro ps
  induction ps with
  | nil => rfl
  | cons p rest ih => simp [List.flatMap_cons, h p, ih]

/-- C6: the combined text equals the lower-cased single-space join of the
record description and plugin, skill and command descriptions in traversal
order; names never contribute to it (erasing every name leaves it
unchanged); and the record with description A and plugin descriptions B
and C yields exactly "a b c" whatever its unrelated fields contain. -/
theorem c6_aggregation_confirmed :
    (∀ m : Marketplace, combinedOf m = specCombined m)
    ∧ (∀ m : Marketplace, combinedOf (eraseNames m) = combinedOf m)
    ∧ combinedOf mC6 = "a b c" := by
  refine ⟨?_, ?_, by decide⟩
  · intro m
    unfold combinedOf specCombined
    rw [allInfo_eq_spec]
  · intro m
    unfold combinedOf
    congr 1
    congr 1
    unfold allInfo eraseNames
    simp only
    rw [flatMap_pluginInfo_of_eq pluginInfo_scrubView]

/-! ## Claim C5 -/

theorem mem_detect_tags (combined all_names t : String) :
    t ∈ detect_tags combined all_names
      ↔ ∃ pt ∈ tag_patterns, wbSearch pt.1 combined = true ∧ t = pt.2 := by
  unfold detect_tags
  rw [List.mem_filterMap]
  constructor
  · rintro ⟨pt, hmem, hf⟩
    by_cases hw : wbSearch pt.1 combined = true
    · rw [if_pos hw] at hf
      exact ⟨pt, hmem, hw, (Option.some_inj.mp hf).symm⟩
    · rw [if_neg hw] at hf
      cases hf
  · rintro ⟨pt, hmem, hw, ht⟩
    exact ⟨pt, hmem, by rw [if_pos hw, ht]⟩

/-- C5: the tag list of the transform is never empty, is sorted ascending,
and contains a tag exactly when the corresponding pattern of the table
matches the combined text (each pattern tested independently of the
others), except that the single default tag general appears exactly when
no pattern matches. -/
theorem c5_tags_confirmed (m : Marketplace) :
    (analyze_marketplace m).stage_lifecycle_arch ≠ []
    ∧ List.Sorted (fun a b : String => a ≤ b) (analyze_marketplace m).stage_lifecycle_arch
    ∧ ∀ t : String,
        t ∈ (analyze_marketplace m).stage_lifecycle_arch ↔
          ((∃ pt ∈ tag_patterns, wbSearch pt.1 (combinedOf m) = true ∧ t = pt.2)
            ∨ (detect_tags (combinedOf m) (allNamesOf m) = [] ∧ t = "general")) := by
  have hstage : (analyze_marketplace m).stage_lifecycle_arch =
      if (detect_tags (combinedOf m) (allNamesOf m)).isEmpty then ["general"]
      else List.insertionSort (fun a b : String => a ≤ b)
        (detect_tags (combinedOf m) (allNamesOf m)) := rfl
  by_cases hemp : (detect_tags (combinedOf m) (allNamesOf m)).isEmpty = true
  · have hnil : detect_tags (combinedOf m) (allNamesOf m) = [] := List.isEmpty_iff.mp hemp
    rw [hstage, if_pos hemp]
    refine ⟨by simp, List.sorted_singleton _, ?_⟩
    intro t
    simp only [List.mem_singleton]
    constructor
    · intro ht
      exact Or.inr ⟨hnil, ht⟩
    · rintro (⟨pt, hmem, hw, ht⟩ | ⟨_, ht⟩)
      · exfalso
        have : pt.2 ∈ detect_tags (combinedOf m) (allNamesOf m) :=
          (mem_detect_tags _ _ _).mpr ⟨pt, hmem, hw, rfl⟩
        rw [hnil] at this
        cases this
      · exact ht
  · have hne : detect_tags (combinedOf m) (allNamesOf m) ≠ [] := by
      intro hc
      rw [hc] at hemp
      exact hemp rfl
    rw [hstage, if_neg hemp]
    have hperm := List.perm_insertionSort (fun a b : String => a ≤ b)
      (detect_tags (combinedOf m) (allNamesOf m))
    refine ⟨?_, List.sorted_insertionSort _ _, ?_⟩
    · intro hc
      rw [hc] at hperm
      exact hne (hperm.symm.eq_nil)
    · intro t
      rw [hperm.mem_iff, mem_detect_tags]
      constructor
      · exact Or.inl
      · rintro (h | ⟨hc, _⟩)
        · exact h
        · exact absurd hc hne

/-! ## Claim C8 -/

theorem firstPluginDesc_some_ne :
    ∀ (ps : List Plugin) (s : String), firstPluginDesc ps = some s → strEmpty s = false := by
  intro ps
  induction ps with
  | nil => intro s h; cases h
  | cons p rest ih =>
    intro s h
    by_cases hp : strEmpty p.description = true
    · rw [firstPluginDesc, if_pos hp] at h
      exact ih s h
    · rw [firstPluginDesc, if_neg hp] at h
      have hs : p.description = s := Option.some_inj.mp h
      rw [← hs]
      exact Bool.not_eq_true _ |>.mp hp

theorem genFromText_some (combined : String) (integration : Option String) (source : String)
    (h : strEmpty source = false) :
    ∃ a b, genFromText combined integration source = (some a, some b) := by
  unfold genFromText genTail
  by_cases h1 : (strIn "visualization" combined || strIn "holoviz" combined || strIn "dashboard" combined && strIn "data" combined) = true
  · rw [if_pos h1]
    exact ⟨_, _, rfl⟩
  rw [if_neg h1]
  by_cases h2 : (strIn "api" combined && (strIn "document" combined || strIn "endpoint" combined) && !strIn "visual" combined) = true
  · rw [if_pos h2]
    exact ⟨_, _, rfl⟩
  rw [if_neg h2]
  by_cases h3 : (strIn "dashboard" combined) = true
  · rw [if_pos h3]
    exact ⟨_, _, rfl⟩
  rw [if_neg h3]
  by_cases h4 : (strIn "root cause" combined || strIn "incident" combined) = true
  · rw [if_pos h4]
    exact ⟨_, _, rfl⟩
  rw [if_neg h4]
  by_cases h5 : (strIn "multi-agent" combined || strIn "orchestrat" combined) = true
  · rw [if_pos h5]
    exact ⟨_, _, rfl⟩
  rw [if_neg h5]
  by_cases h6 : (strIn "session" combined && (strIn "context" combined || strIn "memory" combined || strIn "analytics" combined)) = true
  · rw [if_pos h6]
    exact ⟨_, _, rfl⟩
  rw [if_neg h6]
  by_cases h7 : (strIn "spec" combined && (strIn "driven" combined || strIn "workflow" combined)) = true
  · rw [if_pos h7]
    exact ⟨_, _, rfl⟩
  rw [if_neg h7]
  by_cases h8 : (strIn "tdd" combined || strIn "test-driven" combined) = true
  · rw [if_pos h8]
    exact ⟨_, _, rfl⟩
  rw [if_neg h8]
  by_cases h9 : (strIn "git" combined && (strIn "commit" combined || strIn "workflow" combined || strIn "pr" combined)) = true
  · rw [if_pos h9]
    exact ⟨_, _, rfl⟩
  rw [if_neg h9]
  by_cases h10 : (strIn "code review" combined || strIn "pr review" combined) = true
  · rw [if_pos h10]
    exact ⟨_, _, rfl⟩
  rw [if_neg h10]
  by_cases h11 : (strIn "plugin" combined && (strIn "develop" combined || strIn "create" combined || strIn "build" combined)) = true
  · rw [if_pos h11]
    exact ⟨_, _, rfl⟩
  rw [if_neg h11]
  by_cases h12 : (strIn "document" combined || strIn "changelog" combined || strIn "readme" combined) = true
  · rw [if_pos h12]
    exact ⟨_, _, rfl⟩
  rw [if_neg h12]
  by_cases h13 : (match integration with | some integ => !strEmpty integ | none => false) = true
  · rw [if_pos h13]
    exact ⟨_, _, rfl⟩
  rw [if_neg h13]
  by_cases h14 : (strIn "autonomous" combined || strIn "autopilot" combined || strIn "ralph" combined) = true
  · rw [if_pos h14]
    exact ⟨_, _, rfl⟩
  rw [if_neg h14]
  by_cases h15 : (strIn "research" combined && (strIn "deep" combined || strIn "web" combined)) = true
  · rw [if_pos h15]
    exact ⟨_, _, rfl⟩
  rw [if_neg h15]
  by_cases h16 : (strIn "notification" combined || strIn "alert" combined || strIn "sound" combined) = true
  · rw [if_pos h16]
    exact ⟨_, _, rfl⟩
  rw [if_neg h16]
  by_cases h17 : (strIn "domain-driven" combined || strIn "ddd" combined || strIn "bounded context" combined) = true
  · rw [if_pos h17]
    exact ⟨_, _, rfl⟩
  rw [if_neg h17]
  by_cases h18 : (strIn "security" combined && (strIn "audit" combined || strIn "review" combined || strIn "scan" combined)) = true
  · rw [if_pos h18]
    exact ⟨_, _, rfl⟩
  rw [if_neg h18]
  by_cases h19 : (!strEmpty source) = true
  · rw [if_pos h19]
    exact ⟨_, _, rfl⟩
  rw [if_neg h19]
  exact absurd (by simp [h]) h19

theorem noTextBranch_none_iff (names : List String) :
    ((noTextBranch names).1 = none ↔ (noTextBranch names).2 = none)
    ∧ ((noTextBranch names).1 = none ↔
        (strIn "git" (toLowerStr (joinSp names)) || strIn "commit" (toLowerStr (joinSp names))
          || strIn "review" (toLowerStr (joinSp names))
          || strIn "test" (toLowerStr (joinSp names))) = false) := by
  cases names with
  | nil => exact ⟨by decide, by decide⟩
  | cons n rest =>
    unfold noTextBranch
    simp only [List.isEmpty_cons, Bool.false_eq_true, if_false]
    by_cases h1 : strIn "git" (toLowerStr (joinSp (n :: rest))) = true <;>
      by_cases h2 : strIn "commit" (toLowerStr (joinSp (n :: rest))) = true <;>
        by_cases h3 : strIn "review" (toLowerStr (joinSp (n :: rest))) = true <;>
          by_cases h4 : strIn "test" (toLowerStr (joinSp (n :: rest))) = true <;>
            simp_all

/-- C8: function is absent exactly when value is absent, and the
(none, none) outcome occurs exactly when the record has no usable text (no
record description and no plugin description) and no name-based heuristic
applies; every other input receives a pair of present sentences. -/
theorem c8_none_outcome_confirmed (m : Marketplace) (combined : String)
    (integration : Option String) (tags : List String) :
    ((generate_descriptions m combined integration tags).1 = none
      ↔ (generate_descriptions m combined integration tags).2 = none)
    ∧ ((generate_descriptions m combined integration tags).1 = none
      ↔ (strEmpty m.description = true ∧ (∀ p ∈ m.plugins, strEmpty p.description = true)
          ∧ heuristicApplies m = false)) := by
  have hheur : heuristicApplies m =
      (strIn "git" (toLowerStr (joinSp (m.plugins.map Plugin.name)))
        || strIn "commit" (toLowerStr (joinSp (m.plugins.map Plugin.name)))
        || strIn "review" (toLowerStr (joinSp (m.plugins.map Plugin.name)))
        || strIn "test" (toLowerStr (joinSp (m.plugins.map Plugin.name)))) := rfl
  unfold generate_descriptions
  by_cases hd : strEmpty m.description = true
  · by_cases hp : firstPluginDesc m.plugins = none
    · rw [hd, hp]
      simp only [Option.isNone_none, Bool.and_self, if_true]
      have hnb := noTextBranch_none_iff (m.plugins.map Plugin.name)
      refine ⟨hnb.1, ?_⟩
      rw [hnb.2]
      constructor
      · intro hfour
        refine ⟨trivial, (firstPluginDesc_none_iff m.plugins).mp hp, ?_⟩
        rw [hheur]
        exact hfour
      · rintro ⟨-, -, hh⟩
        rw [hheur] at hh
        exact hh
    · obtain ⟨s, hs⟩ := Option.ne_none_iff_exists'.mp hp
      rw [hd, hs]
      simp only [Option.isNone_some, Bool.and_false, Bool.false_eq_true, if_false,
        Bool.not_true, Option.getD_some]
      have hse : strEmpty s = false := firstPluginDesc_some_ne m.plugins s hs
      obtain ⟨a, b, hab⟩ := genFromText_some combined integration s hse
      rw [hab]
      refine ⟨by simp, ?_⟩
      constructor
      · intro hc
        cases hc
      · rintro ⟨-, hall, -⟩
        have hcontra := (firstPluginDesc_none_iff m.plugins).mpr hall
        rw [hs] at hcontra
        cases hcontra
  · have hd' : strEmpty m.description = false := by
      cases hval : strEmpty m.description with
      | false => rfl
      | true => exact absurd hval hd
    rw [hd']
    simp only [Bool.false_and, Bool.false_eq_true, if_false, Bool.not_false, if_true]
    obtain ⟨a, b, hab⟩ := genFromText_some combined integration m.description hd'
    rw [hab]
    refine ⟨by simp, ?_⟩
    constructor
    · intro hc
      cases hc
    · rintro ⟨hcd, -, -⟩
      exact hcd.elim

/-! ## Claim C9 -/

theorem scrubSC_repo (m : Marketplace) : (scrubSC m).repo = m.repo := rfl

theorem scrubSC_description (m : Marketplace) : (scrubSC m).description = m.description := rfl

theorem scrubSC_plugins (m : Marketplace) :
    (scrubSC m).plugins = m.plugins.map scrubPluginSC := rfl

theorem pluginInfo_scrubPluginSC (p : Plugin) :
    pluginInfo (scrubPluginSC p) = pluginInfo p := by
  unfold scrubPluginSC pluginInfo
  simp only [filterMap_desc_scrub]

theorem firstPluginDesc_scrub (ps : List Plugin) :
    firstPluginDesc (ps.map scrubPluginSC) = firstPluginDesc ps := by
  induction ps with
  | nil => rfl
  | cons p rest ih => simp [firstPluginDesc, scrubPluginSC, ih]

theorem names_scrub (ps : List Plugin) :
    (ps.map scrubPluginSC).map Plugin.name = ps.map Plugin.name := by
  induction ps with
  | nil => rfl
  | cons p rest ih => simp [scrubPluginSC, ih]

theorem combined_scrubSC (m : Marketplace) : combinedOf (scrubSC m) = combinedOf m := by
  unfold combinedOf allInfo
  rw [scrubSC_description, scrubSC_plugins,
    flatMap_pluginInfo_of_eq pluginInfo_scrubPluginSC]

theorem gen_scrub (m : Marketplace) (c : String) (i : Option String) (t : List String) :
    generate_descriptions (scrubSC m) c i t = generate_descriptions m c i t := by
  unfold generate_descriptions
  rw [scrubSC_description, scrubSC_plugins, firstPluginDesc_scrub, names_scrub]

theorem analyze_scrub (m : Marketplace) :
    analyze_marketplace (scrubSC m) = analyze_marketplace m := by
  simp only [analyze_marketplace]
  rw [combined_scrubSC, scrubSC_repo, gen_scrub]
  have hn : detect_integration (combinedOf m) (allNamesOf (scrubSC m)) m.repo
      = detect_integration (combinedOf m) (allNamesOf m) m.repo := rfl
  have ht : detect_tags (combinedOf m) (allNamesOf (scrubSC m))
      = detect_tags (combinedOf m) (allNamesOf m) := rfl
  rw [hn, ht]

/-- C9: two records that agree on everything except the names of skills
and commands (same repo, record name, descriptions at every level, and
plugin names) receive identical analysis results: skill and command names
are aggregated into the name text but never consulted by the integration
classifier, the tag extractor, or the description generator. -/
theorem c9_skill_command_names_confirmed (m₁ m₂ : Marketplace)
    (h : scrubSC m₁ = scrubSC m₂) :
    analyze_marketplace m₁ = analyze_marketplace m₂ := by
  rw [← analyze_scrub m₁, ← analyze_scrub m₂, h]

/-- C9 witness: two concrete records differing only in a skill name and a
command name are mapped to the same result. -/
theorem c9_skill_command_names_witness :
    analyze_marketplace mC9a = analyze_marketplace mC9b :=
  c9_skill_command_names_confirmed mC9a mC9b rfl
